import Mathlib

/-!
Verification of the link-staging / analysis / fetch-dispatch pipeline of
`src/assets/www/putio.js` (the put.io JavaScript client), shallowly embedded
in Lean 4.

The embedding follows the source file closely:

* `trim`, `addFilter`, `removeFilter` embed the string helpers at lines
  80–82 and 1144–1188 of the source.
* `Url`, `Torrent`, `Multipart` embed the object constructors (lines
  240–248, 268–270, 312–314): each is `BaseApiObj(api, args)`, i.e. the
  `args` object itself extended with a `getApi` closure (and, for `Url`,
  a `toString` method reading `this.url`).
* `UrlBucket` embeds the closure state of the `UrlBucket` function
  (lines 401–704): the private `_links` partitions and the four private
  aggregate variables, together with `_add`, `add`, `getReport`,
  `getErrorUrls`, `fetch` (its request construction) and `analyze`
  (its request construction and its response callback).

JavaScript dynamic values are modelled explicitly where the control flow
depends on them: `undefined` is `Option.none`, JS truthiness is `JsArg.truthy`,
`x > 0` on a possibly-`undefined` number is `jsGtZero` (comparison with
`undefined` is `NaN`-false), and property lookup on the `_links` object is
`Links.get` (returning `none` for absent properties).
-/

namespace Putio

/-- JS `\s` whitespace for the ASCII characters that occur in this code base
(space, tab, line feed, carriage return, vertical tab, form feed). -/
def isJsSpace (c : Char) : Bool :=
  c == ' ' || c == '\t' || c == '\n' || c == '\r' || c == '\x0b' || c == '\x0c'

/-- Source lines 80–82: `str.replace(/^\s+|\s+$/g, "")` — removes leading and
trailing whitespace. -/
def trim (str : String) : String :=
  String.mk (((str.toList.dropWhile isJsSpace).reverse.dropWhile isJsSpace).reverse)

/-- Helper for `jsSplit`: walk the character list, cutting at every
separator.  `acc` holds the (reversed) characters of the token being
built. -/
def jsSplitAux (sep : Char) : List Char → List Char → List String
  | [], acc => [String.mk acc.reverse]
  | c :: cs, acc =>
    if c == sep then String.mk acc.reverse :: jsSplitAux sep cs []
    else jsSplitAux sep cs (c :: acc)

/-- JS `str.split(sep)` for a one-character separator: `""` splits to
`[""]`, adjacent separators produce empty tokens, and a trailing
separator produces a trailing empty token — exactly the JS behaviour. -/
def jsSplit (s : String) (sep : Char) : List String :=
  jsSplitAux sep s.toList []

/-- JS `list.join(sep)`: empty list joins to `""`, otherwise the elements
interleaved with the separator. -/
def jsJoin (sep : String) : List String → String
  | [] => ""
  | [x] => x
  | x :: xs => x ++ sep ++ jsJoin sep xs

/-- Source lines 1144–1159 (`Subscription.addFilter`): split the existing
filter string on commas, append every element of `args`, trim every element,
rejoin with commas.  No deduplication. -/
def addFilter (filter : String) (args : List String) : String :=
  let filters := jsSplit filter ','
  let filters := filters ++ args
  let filters := filters.map trim
  jsJoin "," filters

/-- Source lines 1165–1188 (`Subscription.removeFilter`): split the existing
filter string on commas, keep only the tokens whose trimmed form differs from
the trimmed form of every element of `args` (the inner loop with `break` is
exactly this `all`), store the trimmed form of each kept token, rejoin. -/
def removeFilter (filter : String) (args : List String) : String :=
  let filters := jsSplit filter ','
  let new_filters :=
    (filters.filter (fun f => args.all (fun a => !(trim f == trim a)))).map trim
  jsJoin "," new_filters

/-- One entry of the `parts` array of a multipart response record
(see the `Multipart` sample at source lines 284–309). -/
structure PartRec where
  url : String
  name : String
  size : Int
  paid_bw : Int
  deriving DecidableEq

/-- A classified record of an analyze response (`results.items.*` in the
callback at source lines 644–703), as documented in the `Url` / `Torrent`
samples: it carries at least `url`, `name`, `size`, `paid_bw`, and, for
multipart records, a `parts` array. -/
structure UrlRec where
  url : String
  name : String
  size : Int
  paid_bw : Int
  parts : List PartRec := []
  deriving DecidableEq

/-- The possible shapes of the `args` object handed to `Url` / `Torrent` /
`Multipart` by this code base: the empty object (what `BaseObj` substitutes
for a missing argument, line 109), the `{'url': u}` object built by
`UrlBucket.add` (lines 509, 514), a full response record, or one part
record of a multipart response. -/
inductive ObjFields where
  | emptyObj
  | urlOnly (url : String)
  | record (r : UrlRec)
  | part (p : PartRec)
  deriving DecidableEq

/-- The value captured in the `api` position of `BaseApiObj` (line 117).
In every call but one it is the real api handle; in the error loop of the
analyze callback (line 686) the response record itself is passed there. -/
inductive ApiSlot where
  | api
  | errRec (r : UrlRec)
  deriving DecidableEq

/-- The object returned by `BaseApiObj(api, args)` (lines 117–125): the
`args` object itself (`BaseObj` replaces a missing `args` by `{}`, line 109)
carrying the captured `api` reachable through the added `getApi` closure. -/
structure ApiObj where
  fields : ObjFields
  api : ApiSlot
  deriving DecidableEq

/-- `BaseApiObj(api, args)`; `args = none` models a call with the second
argument omitted (JS `undefined`), for which `BaseObj` substitutes `{}`. -/
def BaseApiObj (apiArg : ApiSlot) (args : Option ObjFields) : ApiObj :=
  { fields := args.getD ObjFields.emptyObj, api := apiArg }

/-- Source lines 240–248: `Url(api, args)` is `BaseApiObj(api, args)` plus a
`toString` method returning `this.url` (modelled by `ApiObj.url`). -/
def Url (apiArg : ApiSlot) (args : Option ObjFields) : ApiObj :=
  BaseApiObj apiArg args

/-- Source lines 268–270: `Torrent(api, args)` is `BaseApiObj(api, args)`. -/
def Torrent (apiArg : ApiSlot) (args : Option ObjFields) : ApiObj :=
  BaseApiObj apiArg args

/-- Source lines 312–314: `Multipart(api, args)` is `BaseApiObj(api, args)`. -/
def Multipart (apiArg : ApiSlot) (args : Option ObjFields) : ApiObj :=
  BaseApiObj apiArg args

/-- Property lookup `obj.url` on a bucket entry: `none` models JS
`undefined` (the property is absent from the object). -/
def ApiObj.url : ApiObj → Option String
  | { fields := ObjFields.emptyObj, .. } => none
  | { fields := ObjFields.urlOnly u, .. } => some u
  | { fields := ObjFields.record r, .. } => some r.url
  | { fields := ObjFields.part p, .. } => some p.url

/-- `getApi()` on a bucket entry returns the value captured in the `api`
position (lines 120–122). -/
def ApiObj.getApi (o : ApiObj) : ApiSlot :=
  o.api

/-- The `_links` object of a bucket (source lines 409–410): four partitions,
each an ordered array of entries. -/
structure Links where
  multiparturl : List ApiObj
  torrenturl : List ApiObj
  singleurl : List ApiObj
  error : List ApiObj
  deriving DecidableEq

/-- JS property lookup on the `_links` object by property name: `some` for
the four properties it owns, `none` (JS `undefined`) for anything else. -/
def Links.get (l : Links) : String → Option (List ApiObj)
  | "multiparturl" => some l.multiparturl
  | "torrenturl" => some l.torrenturl
  | "singleurl" => some l.singleurl
  | "error" => some l.error
  | _ => none

/-- The `for (key in _links)` enumeration order: ECMAScript enumerates own
string-valued properties in insertion order, and both the initializer
(line 409) and the reset in the analyze callback (line 690) insert the
properties in the order `multiparturl, torrenturl, singleurl, error`.
All four pass the `hasOwnProperty` guard. -/
def linksKeys : List String :=
  ["multiparturl", "torrenturl", "singleurl", "error"]

/-- Lookup of the `length` property on the `_links` object itself: the
object owns no such property, so the lookup yields JS `undefined`. -/
def Links.lengthProp (_l : Links) : Option Int :=
  none

/-- The closure state of one `UrlBucket` (source lines 401–410): the
`_links` partitions and the four private aggregate variables, each
initialized to `null` (`Option.none`). -/
structure UrlBucket where
  links : Links
  last_analyzed_bw_avail : Option Int := none
  last_analyzed_disk_avail : Option Int := none
  req_space : Option Int := none
  paid_bw : Option Int := none
  deriving DecidableEq

/-- The `info` argument of the private `_add` (lines 412–450): either
omitted, in which case the default `[]` (an array, `length` property `0`)
is used, or the plain object built by the analyze callback (lines 693–697),
which owns no `length` property. -/
inductive InfoArg where
  | default
  | obj (last_analyzed_disk_avail last_analyzed_bw_avail paid_bw req_space : Int)
  deriving DecidableEq

/-- Lookup of `info.length`: `0` for the default `[]`, JS `undefined`
(`none`) for the plain info object, which has no `length` property. -/
def InfoArg.length : InfoArg → Option Int
  | InfoArg.default => some 0
  | InfoArg.obj _ _ _ _ => none

/-- `info.last_analyzed_disk_avail` (absent on the default `[]`). -/
def InfoArg.last_analyzed_disk_avail : InfoArg → Option Int
  | InfoArg.default => none
  | InfoArg.obj d _ _ _ => some d

/-- `info.last_analyzed_bw_avail` (absent on the default `[]`). -/
def InfoArg.last_analyzed_bw_avail : InfoArg → Option Int
  | InfoArg.default => none
  | InfoArg.obj _ b _ _ => some b

/-- `info.paid_bw` (absent on the default `[]`). -/
def InfoArg.paid_bw : InfoArg → Option Int
  | InfoArg.default => none
  | InfoArg.obj _ _ p _ => some p

/-- `info.req_space` (absent on the default `[]`). -/
def InfoArg.req_space : InfoArg → Option Int
  | InfoArg.default => none
  | InfoArg.obj _ _ _ r => some r

/-- JS `x > 0` where `x` may be `undefined`: comparison with `undefined`
is a `NaN` comparison and yields `false`. -/
def jsGtZero : Option Int → Bool
  | none => false
  | some n => decide (0 < n)

/-- JS `x || old` where `x` may be `undefined` and `0` is falsy. -/
def jsOr (x : Option Int) (old : Option Int) : Option Int :=
  match x with
  | none => old
  | some n => if n = 0 then old else some n

/-- The private `_add` (source lines 412–450): appends the four argument
arrays to the four partitions in place, then — only when `info.length > 0`
holds — folds the info fields into the aggregate variables with `||`
fallbacks.  The `isArray` guard of lines 420–424 never fires in this
embedding because every in-repository caller passes arrays, which the
`List` argument types already enforce.  Note `info.length` is `undefined`
for the plain object the analyze callback passes, and `undefined > 0` is
false, so the then-branch is unreachable from both in-repository call
sites. -/
def UrlBucket._add (b : UrlBucket)
    (singleurl torrenturl multiparturl error : List ApiObj)
    (info : InfoArg) : UrlBucket :=
  let links : Links :=
    { singleurl := b.links.singleurl ++ singleurl,
      torrenturl := b.links.torrenturl ++ torrenturl,
      multiparturl := b.links.multiparturl ++ multiparturl,
      error := b.links.error ++ error }
  if jsGtZero info.length then
    { links := links,
      last_analyzed_bw_avail := jsOr info.last_analyzed_bw_avail b.last_analyzed_bw_avail,
      last_analyzed_disk_avail := jsOr info.last_analyzed_disk_avail b.last_analyzed_disk_avail,
      req_space := jsOr info.req_space b.req_space,
      paid_bw := jsOr info.paid_bw b.paid_bw }
  else
    { b with links := links }

/-- The `UrlBucket(api, singleurl, torrenturl, multiparturl)` constructor
(lines 401–453): fresh null aggregates and empty partitions, then
`_add(singleurl, torrenturl, multiparturl)` with `error` and `info`
omitted (defaulting to `[]`). -/
def UrlBucket.init (singleurl torrenturl multiparturl : List ApiObj) : UrlBucket :=
  UrlBucket._add
    { links := { multiparturl := [], torrenturl := [], singleurl := [], error := [] } }
    singleurl torrenturl multiparturl [] InfoArg.default

/-- `getReqSpace` (lines 459–461). -/
def UrlBucket.getReqSpace (b : UrlBucket) : Option Int :=
  b.req_space

/-- `getPaidBw` (lines 467–469). -/
def UrlBucket.getPaidBw (b : UrlBucket) : Option Int :=
  b.paid_bw

/-- `getSingleUrls` (lines 474–476). -/
def UrlBucket.getSingleUrls (b : UrlBucket) : List ApiObj :=
  b.links.singleurl

/-- `getTorrentUrls` (lines 481–483). -/
def UrlBucket.getTorrentUrls (b : UrlBucket) : List ApiObj :=
  b.links.torrenturl

/-- `getMultipartUrls` (lines 488–490). -/
def UrlBucket.getMultipartUrls (b : UrlBucket) : List ApiObj :=
  b.links.multiparturl

/-- `getErrorUrls` (lines 495–497): `return _links.errorurl` — a property
lookup of the key `errorurl` on the `_links` object. -/
def UrlBucket.getErrorUrls (b : UrlBucket) : Option (List ApiObj) :=
  b.links.get "errorurl"

/-- A model of an arbitrary JavaScript value passed as the argument of
`add` or the `links` argument of `analyze`: a string, an array of raw URL
strings, or any of the remaining value shapes the validation code
distinguishes only through truthiness and `typeof`/`isArray`. -/
inductive JsArg where
  | str (s : String)
  | arr (xs : List String)
  | num (n : Int)
  | boolVal (b : Bool)
  | nullVal
  | undef
  | objVal
  deriving DecidableEq

/-- JS truthiness: `""`, `0`, `false`, `null`, `undefined` are falsy;
arrays and plain objects are truthy. -/
def JsArg.truthy : JsArg → Bool
  | JsArg.str s => !(s == "")
  | JsArg.arr _ => true
  | JsArg.num n => !(n == 0)
  | JsArg.boolVal b => b
  | JsArg.nullVal => false
  | JsArg.undef => false
  | JsArg.objVal => true

/-- `typeof x === 'string'`. -/
def JsArg.isStringType : JsArg → Bool
  | JsArg.str _ => true
  | _ => false

/-- The `isArray` helper of source lines 90–92. -/
def JsArg.isArray : JsArg → Bool
  | JsArg.arr _ => true
  | _ => false

/-- The exception text thrown by `add` (line 520). -/
def addErrMsg : String :=
  "Add method takes only a string or an array as argument"

/-- The exception text thrown by `analyze` (lines 615–616, after the string
concatenation of the source). -/
def analyzeErrMsg : String :=
  "Analyze method takes a list. Use extract_urls() to convert string of urls to a list."

/-- `UrlBucket.add` (source lines 506–524).  A truthy string appends one
`Url(api, {'url': url})` to the `singleurl` partition; an array (always
truthy) appends one such entry per element in order; everything else —
including the empty string, which is falsy and therefore fails the first
guard `url && typeof url === 'string'` — reaches the `else` branch and
throws before touching any state. -/
def UrlBucket.add (b : UrlBucket) (url : JsArg) : Except String UrlBucket :=
  match url with
  | JsArg.str s =>
    if s == "" then
      Except.error addErrMsg
    else
      Except.ok { b with links := { b.links with
        singleurl := b.links.singleurl ++ [Url ApiSlot.api (some (ObjFields.urlOnly s))] } }
  | JsArg.arr xs =>
    Except.ok { b with links := { b.links with
      singleurl := b.links.singleurl ++
        xs.map (fun u => Url ApiSlot.api (some (ObjFields.urlOnly u))) } }
  | _ => Except.error addErrMsg

/-- The report structure returned by `getReport` (lines 546–552); field
names follow the string keys of the returned object. -/
structure Report where
  current_available_disk_space : Option Int
  current_available_bandwidth : Option Int
  required_space : Option Int
  bandwidth_to_be_deducted : Option Int
  urls : Links
  deriving DecidableEq

/-- `getReport` (source lines 546–552). -/
def UrlBucket.getReport (b : UrlBucket) : Report :=
  { current_available_disk_space := b.last_analyzed_disk_avail,
    current_available_bandwidth := b.last_analyzed_bw_avail,
    required_space := b.req_space,
    bandwidth_to_be_deducted := b.paid_bw,
    urls := b.links }

/-- The `go_fetch` list built by `fetch` (source lines 564–579): iterate the
`_links` properties in enumeration order, skip `error`, and push
`_links[key][i].url` for each entry in array order.  An entry with no `url`
property contributes JS `undefined` (`none`). -/
def UrlBucket.fetchRequest (b : UrlBucket) : List (Option String) :=
  linksKeys.flatMap (fun key =>
    if key == "error" then []
    else ((b.links.get key).getD []).map ApiObj.url)

/-- `fetch` (source lines 564–593): the body assigns none of the closure
variables — it only reads the partitions to build the request — so its
state transformer is the identity and its observable output is the
request list handed to `callServerMethod('/transfers', 'add', ...)`. -/
def UrlBucket.fetch (b : UrlBucket) : UrlBucket × List (Option String) :=
  (b, b.fetchRequest)

/-- The loop bound of `for (i = 0; i < bound; i++)` when `bound` may be JS
`undefined`: a comparison with `undefined` is `NaN`-false at every `i`,
so the loop runs zero times. -/
def jsLoopCount : Option Int → Nat
  | none => 0
  | some n => n.toNat

/-- The "add also the staged links" loop of `analyze` (source lines
626–636): for each `_links` property except `error`, run
`for (i = 0; i < _links.length; i++)` pushing `_links[k][i].url`.  The
bound reads `length` off the `_links` object itself, which owns no such
property (`Links.lengthProp` is `none`), so the inner loop body never
executes and the loop contributes nothing for every key. -/
def analyzeStagedUrls (l : Links) : List (Option String) :=
  (linksKeys.filter (fun k => !(k == "error"))).flatMap (fun k =>
    (List.range (jsLoopCount l.lengthProp)).map (fun i =>
      (((l.get k).getD []).get? i).bind ApiObj.url))

/-- The request construction of `analyze` (source lines 611–638):
`links = links || []`; throw unless the result is an array; then
`go_analyze` receives `links[k].toString()` for every candidate (the
`toString` of a raw string is the string itself) followed by whatever the
staged-links loop contributes.  An `Except.error` models the synchronous
throw, which happens before `callServerMethod` is reached. -/
def UrlBucket.analyzeRequest (b : UrlBucket) (links : JsArg) :
    Except String (List (Option String)) :=
  let links := if links.truthy then links else JsArg.arr []
  match links with
  | JsArg.arr xs => Except.ok (xs.map some ++ analyzeStagedUrls b.links)
  | _ => Except.error analyzeErrMsg

/-- The `items` object of an analyze response, with the exact property
names the callback reads (lines 654, 666, 676, 685): `multiparturl`,
`torrent`, `singleurl`, `error`. -/
structure AnalyzeItems where
  multiparturl : List UrlRec
  torrent : List UrlRec
  singleurl : List UrlRec
  error : List UrlRec
  deriving DecidableEq

/-- An analyze response: the classified items plus the two account quota
snapshots (`results.disk_avail`, `results.bw_avail`, lines 694–695). -/
structure AnalyzeResponse where
  items : AnalyzeItems
  disk_avail : Int
  bw_avail : Int
  deriving DecidableEq

/-- The response callback of `analyze` (source lines 644–703): build the
four new entry lists — one `Multipart(api, part)` per part of each
multipart record, one `Torrent(api, r)` per torrent record, one
`Url(api, r)` per single record, and one `Url(record)` per error record
(line 686 passes the record as the *first* argument, so it lands in the
`api` position and the `args` position is `undefined`); accumulate
`paid_bw` and `req_space` over the record-level `paid_bw` and `size`
fields of the multipart, torrent and single records; reset `_links` to
four empty partitions (lines 690–691); finally call `_add` with the new
lists and the info object. -/
def UrlBucket.analyzeCallback (b : UrlBucket) (results : AnalyzeResponse) : UrlBucket :=
  let multipart_urls := results.items.multiparturl.flatMap (fun r =>
    r.parts.map (fun p => Multipart ApiSlot.api (some (ObjFields.part p))))
  let torrent_urls := results.items.torrent.map (fun r =>
    Torrent ApiSlot.api (some (ObjFields.record r)))
  let single_urls := results.items.singleurl.map (fun r =>
    Url ApiSlot.api (some (ObjFields.record r)))
  let error_urls := results.items.error.map (fun r =>
    Url (ApiSlot.errRec r) none)
  let paid_bw : Int :=
    (results.items.multiparturl.map UrlRec.paid_bw).sum +
    (results.items.torrent.map UrlRec.paid_bw).sum +
    (results.items.singleurl.map UrlRec.paid_bw).sum
  let req_space : Int :=
    (results.items.multiparturl.map UrlRec.size).sum +
    (results.items.torrent.map UrlRec.size).sum +
    (results.items.singleurl.map UrlRec.size).sum
  let b := { b with links :=
    { multiparturl := [], torrenturl := [], singleurl := [], error := [] } }
  UrlBucket._add b single_urls torrent_urls multipart_urls error_urls
    (InfoArg.obj results.disk_avail results.bw_avail paid_bw req_space)

/-- The four aggregate variables of a bucket, bundled for frame
statements. -/
def aggregatesOf (b : UrlBucket) : Option Int × Option Int × Option Int × Option Int :=
  (b.req_space, b.paid_bw, b.last_analyzed_disk_avail, b.last_analyzed_bw_avail)

/-- The strings a successful `add` call stages: one for a bare string
argument, one per element for an array argument. -/
def addUrlStrings : JsArg → List String
  | JsArg.str s => [s]
  | JsArg.arr xs => xs
  | _ => []

/-- A freshly constructed bucket: `UrlBucket(api)` with all three seed
groups omitted. -/
def emptyBucket : UrlBucket :=
  UrlBucket.init [] [] []

/-- A concrete successful analyze response holding one single-url record
of size `100` with billed bandwidth `10`, with quota snapshots `500`
(disk) and `600` (bandwidth). -/
def respSingle100 : AnalyzeResponse :=
  { items :=
      { multiparturl := [],
        torrent := [],
        singleurl := [{ url := "http://a/f", name := "f", size := 100, paid_bw := 10 }],
        error := [] },
    disk_avail := 500,
    bw_avail := 600 }

/-- A bucket seeded with one single-partition entry (url `"s"`) and one
torrent-partition entry (url `"t"`). -/
def bucketSingleTorrent : UrlBucket :=
  UrlBucket.init
    [Url ApiSlot.api (some (ObjFields.record { url := "s", name := "sn", size := 1, paid_bw := 0 }))]
    [Torrent ApiSlot.api (some (ObjFields.record { url := "t", name := "tn", size := 2, paid_bw := 0 }))]
    []

/-- The bucket obtained from `emptyBucket` by a successful
`add("http://w/y")`. -/
def addedBucket : UrlBucket :=
  { emptyBucket with links := { emptyBucket.links with
      singleurl := emptyBucket.links.singleurl ++
        [Url ApiSlot.api (some (ObjFields.urlOnly "http://w/y"))] } }

/-- Claim C1: the request built by `analyze` carries only the candidate
URLs; the staged non-error partitions are never included, because the
staged-links loop bound reads the absent `length` property of the
`_links` object (`undefined`), so the loop collects nothing.  At the
failing input — a bucket with a staged single URL and an empty candidate
list — the request is empty although the claim requires it to carry the
staged URL. -/
theorem analyze_request_omits_staged_urls (b : UrlBucket) (xs : List String) :
    UrlBucket.analyzeRequest b (JsArg.arr xs) = Except.ok (xs.map some) := by
  have h : analyzeStagedUrls b.links = [] := rfl
  simp [UrlBucket.analyzeRequest, JsArg.truthy, h]

/-- Claim C2: the aggregate fields are never recomputed by a successful
analyze — `_add` guards the update with `info.length > 0`, but the info
argument is a plain object with no `length` property, so the guard reads
`undefined` and is false.  The aggregates of the bucket after the analyze
callback are exactly the aggregates before it; in particular a report
taken after the first analysis still shows all four fields `null` instead
of the sums and snapshots the claim requires. -/
theorem analyze_never_updates_aggregates (b : UrlBucket) (r : AnalyzeResponse) :
    aggregatesOf (UrlBucket.analyzeCallback b r) = aggregatesOf b ∧
    (UrlBucket.getReport (UrlBucket.analyzeCallback emptyBucket respSingle100)).required_space
      = none ∧
    (UrlBucket.getReport (UrlBucket.analyzeCallback emptyBucket respSingle100)).bandwidth_to_be_deducted
      = none ∧
    (UrlBucket.getReport (UrlBucket.analyzeCallback emptyBucket respSingle100)).current_available_disk_space
      = none ∧
    (UrlBucket.getReport (UrlBucket.analyzeCallback emptyBucket respSingle100)).current_available_bandwidth
      = none :=
  ⟨rfl, rfl, rfl, rfl, rfl⟩

/-- Claim C3: a successful analyze discards all four previous partitions
and rebuilds them solely from the response classification: the resulting
partitions do not depend on the prior bucket state, and they equal
exactly the entries constructed from the response's single, torrent,
multipart-part and error records. -/
theorem analyze_rebuilds_partitions_from_response (b b2 : UrlBucket) (r : AnalyzeResponse) :
    (UrlBucket.analyzeCallback b r).links = (UrlBucket.analyzeCallback b2 r).links ∧
    (UrlBucket.analyzeCallback b r).links =
      { singleurl := r.items.singleurl.map
          (fun q => Url ApiSlot.api (some (ObjFields.record q))),
        torrenturl := r.items.torrent.map
          (fun q => Torrent ApiSlot.api (some (ObjFields.record q))),
        multiparturl := r.items.multiparturl.flatMap
          (fun q => q.parts.map (fun p => Multipart ApiSlot.api (some (ObjFields.part p)))),
        error := r.items.error.map (fun q => Url (ApiSlot.errRec q) none) } :=
  ⟨rfl, rfl⟩

/-- Claim C4 (as stated, refuted): on a bucket holding a single-partition
entry `"s"` and a torrent-partition entry `"t"`, the fetch request is
`["t", "s"]` — the `for (key in _links)` loop enumerates the partitions
in property-insertion order `multiparturl, torrenturl, singleurl` — and
not the `["s", "t"]` the claimed partition order `single, torrent,
multipart` requires. -/
theorem fetch_request_order_cex :
    (UrlBucket.fetch bucketSingleTorrent).2 = [some "t", some "s"] ∧
    ([some "t", some "s"] : List (Option String)) ≠ [some "s", some "t"] := by
  decide

/-- Claim C4 (amended): the fetch request contains the `url` of every
entry of the multipart, torrent and single partitions — in that partition
order, the enumeration order of the `_links` properties — preserving
insertion order within each partition, and no entry of the error
partition. -/
theorem fetch_request_order (b : UrlBucket) :
    (UrlBucket.fetch b).2 =
      b.links.multiparturl.map ApiObj.url ++
      b.links.torrenturl.map ApiObj.url ++
      b.links.singleurl.map ApiObj.url := by
  simp [UrlBucket.fetch, UrlBucket.fetchRequest, linksKeys, Links.get]

/-- Claim C5 (as stated, refuted): an empty string is a raw URL string,
but `add("")` throws instead of appending — the empty string is falsy, so
it fails the `url && typeof url === 'string'` guard and reaches the
`else` throw. -/
theorem add_empty_string_cex :
    UrlBucket.add emptyBucket (JsArg.str "") = Except.error addErrMsg := by
  rfl

/-- Claim C5 (amended): every add call given a nonempty raw URL string,
or an array of raw URL strings, appends exactly one `Url` entry per input
string — with `url` field equal to the input — to the end of the single
partition in input order, with no deduplication and no change to any
other partition or to the aggregate fields. -/
theorem add_appends_singleurl (b : UrlBucket) (v : JsArg)
    (h : (∃ s, v = JsArg.str s ∧ s ≠ "") ∨ (∃ xs, v = JsArg.arr xs)) :
    UrlBucket.add b v = Except.ok { b with links := { b.links with
      singleurl := b.links.singleurl ++
        (addUrlStrings v).map (fun s => Url ApiSlot.api (some (ObjFields.urlOnly s))) } } := by
  rcases h with ⟨s, rfl, hs⟩ | ⟨xs, rfl⟩
  · simp [UrlBucket.add, addUrlStrings, hs]
  · rfl

/-- Witness for `add_appends_singleurl` at the nonempty string
`"http://e/x"` on a fresh bucket. -/
theorem add_appends_singleurl_witness :
    UrlBucket.add emptyBucket (JsArg.str "http://e/x") =
      Except.ok { emptyBucket with links := { emptyBucket.links with
        singleurl := emptyBucket.links.singleurl ++
          (addUrlStrings (JsArg.str "http://e/x")).map
            (fun s => Url ApiSlot.api (some (ObjFields.urlOnly s))) } } :=
  add_appends_singleurl emptyBucket (JsArg.str "http://e/x")
    (Or.inl ⟨"http://e/x", rfl, by decide⟩)

/-- Claim C6 (as stated, refuted): `null` is a candidateLocators argument
that is present and not an array, yet `analyze` does not raise — `null`
is falsy, so `links = links || []` replaces it by an empty array and the
request construction succeeds with an empty link list. -/
theorem analyze_null_candidates_cex :
    UrlBucket.analyzeRequest emptyBucket JsArg.nullVal = Except.ok [] := by
  rfl

/-- Claim C6 (amended): `add` raises `InvalidInput` for every argument
that is neither a string nor an array, and `analyze` raises
`InvalidInput` for every candidateLocators argument that is truthy and
not an array (a falsy argument such as `null` is replaced by an empty
array instead); in both cases the throw is synchronous, happens before
the network request is built, and — the error carrying no new state —
the bucket is unchanged. -/
theorem invalid_args_raise (b : UrlBucket) (v w : JsArg)
    (hv : v.isStringType = false ∧ v.isArray = false)
    (hw : w.truthy = true ∧ w.isArray = false) :
    UrlBucket.add b v = Except.error addErrMsg ∧
    UrlBucket.analyzeRequest b w = Except.error analyzeErrMsg := by
  obtain ⟨hv1, hv2⟩ := hv
  obtain ⟨hw1, hw2⟩ := hw
  constructor
  · cases v <;> simp_all [UrlBucket.add, JsArg.isStringType, JsArg.isArray]
  · cases w <;> simp_all [UrlBucket.analyzeRequest, JsArg.truthy, JsArg.isArray]

/-- Witness for `invalid_args_raise` at the number `7` for both
arguments: `add(7)` and `analyze(callback, 7)` both throw. -/
theorem invalid_args_raise_witness :
    UrlBucket.add emptyBucket (JsArg.num 7) = Except.error addErrMsg ∧
    UrlBucket.analyzeRequest emptyBucket (JsArg.num 7) = Except.error analyzeErrMsg :=
  invalid_args_raise emptyBucket (JsArg.num 7) (JsArg.num 7)
    ⟨rfl, rfl⟩ ⟨rfl, rfl⟩

/-- Claim C7: the filter-list merge of `"jazz, mp3"` with `["rock"]`
yields `"jazz,mp3,rock"` and the filter-list removal of `["mp3"]` from
`"jazz,mp3,rock"` yields `"jazz,rock"`. -/
theorem filter_merge_remove :
    addFilter "jazz, mp3" ["rock"] = "jazz,mp3,rock" ∧
    removeFilter "jazz,mp3,rock" ["mp3"] = "jazz,rock" := by
  constructor <;> rfl

/-- Claim C8: the four aggregate fields are unchanged by every fetch call
(whose body assigns no closure variable) and by every successful add
call (which only appends to the single partition). -/
theorem fetch_add_preserve_aggregates (b b2 : UrlBucket) (v : JsArg)
    (h : UrlBucket.add b v = Except.ok b2) :
    aggregatesOf (UrlBucket.fetch b).1 = aggregatesOf b ∧
    aggregatesOf b2 = aggregatesOf b := by
  refine ⟨rfl, ?_⟩
  cases v with
  | str s =>
    simp only [UrlBucket.add] at h
    split at h
    · exact Except.noConfusion h
    · injection h with h2
      subst h2
      rfl
  | arr xs =>
    simp only [UrlBucket.add] at h
    injection h with h2
    subst h2
    rfl
  | num n => exact Except.noConfusion h
  | boolVal c => exact Except.noConfusion h
  | nullVal => exact Except.noConfusion h
  | undef => exact Except.noConfusion h
  | objVal => exact Except.noConfusion h

/-- Witness for `fetch_add_preserve_aggregates`: a fetch on a fresh
bucket and the add of `"http://w/y"` to it both leave the aggregates
untouched. -/
theorem fetch_add_preserve_aggregates_witness :
    aggregatesOf (UrlBucket.fetch emptyBucket).1 = aggregatesOf emptyBucket ∧
    aggregatesOf addedBucket = aggregatesOf emptyBucket :=
  fetch_add_preserve_aggregates emptyBucket addedBucket (JsArg.str "http://w/y") rfl

/-- Claim C9: `getErrorUrls` looks up the property `errorurl` on the
`_links` object, which only owns `multiparturl`, `torrenturl`,
`singleurl` and `error`, so it returns `undefined` for every bucket —
while the error partition itself is stored under the key `error`, the
one `getReport` exposes and `fetch` skips. -/
theorem getErrorUrls_returns_undefined (b : UrlBucket) :
    UrlBucket.getErrorUrls b = none ∧
    b.links.get "error" = some b.links.error ∧
    (UrlBucket.getReport b).urls = b.links :=
  ⟨rfl, rfl, rfl⟩

/-- Claim C10: each record of the response's error list becomes an
error-partition entry built by `Url(record)` — the record lands in the
`api` position and the `args` position is `undefined` — so the entry's
own fields are the empty object (no `url`, `name` or fault detail), its
`url` lookup is `undefined`, and the original payload survives only
behind the `getApi` closure. -/
theorem error_entries_carry_no_fields (b : UrlBucket) (r : AnalyzeResponse) (q : UrlRec) :
    (UrlBucket.analyzeCallback b r).links.error =
      r.items.error.map (fun e => Url (ApiSlot.errRec e) none) ∧
    (Url (ApiSlot.errRec q) none).fields = ObjFields.emptyObj ∧
    ApiObj.url (Url (ApiSlot.errRec q) none) = none ∧
    ApiObj.getApi (Url (ApiSlot.errRec q) none) = ApiSlot.errRec q :=
  ⟨rfl, rfl, rfl, rfl⟩

end Putio
